import Mathlib

/-!
# DueDiligence_Notes_Processing — pseudonymization subsystem, verified model

A shallow embedding of the reversible-pseudonymization subsystem of the
`DueDiligence_Notes_Processing` repository:

* `DD_Pseudonymization.pseudonymize` — the forward transform over a pandas
  DataFrame (modelled as `DataFrame` below);
* `DD_Unpseudonymization.unpseudonymize` — the reversal engine over a
  JSON-serializable result object (modelled as `JVal` below);
* `DD_Term_Storage.store_terms` / `DD_Process_Storage.store_processes` —
  the persisted registries.

Machine integers are `Nat` with explicit `% 2 ^ 32` where the Python code
relies on 32-bit wraparound (inside SHA-256); Python dictionaries are
association lists with in-place value update (insertion order preserved);
fallible operations return `Option`, mirroring the modules' `return None`
error convention.
-/

set_option maxRecDepth 100000

namespace DD

/-! ## Python string primitives

The modules use `str.strip()`, `str.encode()` (UTF-8), `str.replace` and
`hashlib.sha256(...).hexdigest()`.  We model strings by their character
lists and define each primitive from Python's documented behaviour.
-/

/-- The whitespace characters removed by Python's `str.strip()` (ASCII
subset: space, tab, newline, carriage return, vertical tab, form feed). -/
def isPyWhitespace (c : Char) : Bool :=
  c = ' ' || c = '\t' || c = '\n' || c = '\x0d' || c = '\x0b' || c = '\x0c'

/-- Python `str.strip()`: remove leading and trailing whitespace. -/
def pyStrip (s : String) : String :=
  String.mk (((s.data.dropWhile isPyWhitespace).reverse.dropWhile
      isPyWhitespace).reverse)

/-- UTF-8 encoding of a single code point, as bytes (each `< 256`). -/
def utf8Char (c : Nat) : List Nat :=
  if c < 0x80 then [c]
  else if c < 0x800 then [0xc0 + c / 64, 0x80 + c % 64]
  else if c < 0x10000 then
    [0xe0 + c / 4096, 0x80 + (c / 64) % 64, 0x80 + c % 64]
  else
    [0xf0 + c / 262144, 0x80 + (c / 4096) % 64, 0x80 + (c / 64) % 64,
     0x80 + c % 64]

/-- Python `str.encode()`: the UTF-8 bytes of a string. -/
def utf8Bytes (s : String) : List Nat :=
  (s.data.map (fun c => utf8Char c.toNat)).flatten

/-! ## SHA-256 (`hashlib.sha256`)

The compression function over `Nat`, all word operations taken modulo
`2 ^ 32`, following FIPS 180-4 exactly as `hashlib` implements it. -/

/-- 32-bit right rotation. -/
def rotr32 (n x : Nat) : Nat :=
  (x / 2 ^ n + (x % 2 ^ n) * 2 ^ (32 - n)) % 2 ^ 32

/-- 32-bit right shift. -/
def shr32 (n x : Nat) : Nat := x / 2 ^ n

/-- 32-bit bitwise complement of a word `< 2 ^ 32`. -/
def not32 (x : Nat) : Nat := (2 ^ 32 - 1) - x % 2 ^ 32

/-- The 64 SHA-256 round constants of FIPS 180-4 §4.2.2, as decimal
words. -/
def sha256K : List Nat :=
  [1116352408, 1899447441, 3049323471, 3921009573, 961987163, 1508970993,
   2453635748, 2870763221, 3624381080, 310598401, 607225278, 1426881987,
   1925078388, 2162078206, 2614888103, 3248222580, 3835390401, 4022224774,
   264347078, 604807628, 770255983, 1249150122, 1555081692, 1996064986,
   2554220882, 2821834349, 2952996808, 3210313671, 3336571891, 3584528711,
   113926993, 338241895, 666307205, 773529912, 1294757372, 1396182291,
   1695183700, 1986661051, 2177026350, 2456956037, 2730485921, 2820302411,
   3259730800, 3345764771, 3516065817, 3600352804, 4094571909, 275423344,
   430227734, 506948616, 659060556, 883997877, 958139571, 1322822218,
   1537002063, 1747873779, 1955562222, 2024104815, 2227730452, 2361852424,
   2428436474, 2756734187, 3204031479, 3329325298]

/-- The SHA-256 initial hash value (FIPS 180-4 §5.3.3), as decimal
words. -/
def sha256H0 : List Nat :=
  [1779033703, 3144134277, 1013904242, 2773480762,
   1359893119, 2600822924, 528734635, 1541459225]

/-- Message padding: append `0x80`, zeros, and the 64-bit big-endian bit
length, so the total length is a multiple of 64 bytes. -/
def sha256Pad (msg : List Nat) : List Nat :=
  let l := msg.length
  let k := (119 - l % 64) % 64
  msg ++ [0x80] ++ List.replicate k 0 ++
    (List.range 8).map (fun i => (8 * l) / 2 ^ (8 * (7 - i)) % 256)

/-- Split the padded message into 64-byte blocks. -/
def sha256Blocks (padded : List Nat) : List (List Nat) :=
  (List.range (padded.length / 64)).map
    (fun i => ((padded.drop (64 * i)).take 64))

/-- The sixteen 32-bit big-endian words of one block. -/
def blockWords (block : List Nat) : List Nat :=
  (List.range 16).map (fun j =>
    block.getD (4 * j) 0 * 2 ^ 24 + block.getD (4 * j + 1) 0 * 2 ^ 16 +
    block.getD (4 * j + 2) 0 * 2 ^ 8 + block.getD (4 * j + 3) 0)

/-- One step of the message-schedule extension: append
`w[i-16] + σ0(w[i-15]) + w[i-7] + σ1(w[i-2]) mod 2^32`. -/
def scheduleStep (w : List Nat) : List Nat :=
  let n := w.length
  let s0 :=
    Nat.xor (Nat.xor (rotr32 7 (w.getD (n - 15) 0)) (rotr32 18 (w.getD (n - 15) 0)))
      (shr32 3 (w.getD (n - 15) 0))
  let s1 :=
    Nat.xor (Nat.xor (rotr32 17 (w.getD (n - 2) 0)) (rotr32 19 (w.getD (n - 2) 0)))
      (shr32 10 (w.getD (n - 2) 0))
  w ++ [(w.getD (n - 16) 0 + s0 + w.getD (n - 7) 0 + s1) % 2 ^ 32]

/-- The 64-word message schedule of one block. -/
def sha256Schedule (block : List Nat) : List Nat :=
  (List.range 48).foldl (fun w _ => scheduleStep w) (blockWords block)

/-- One compression round: state `[a,b,c,d,e,f,g,h]`, schedule word `w`,
round constant `k`. -/
def sha256Round (st : List Nat) (wk : Nat × Nat) : List Nat :=
  let a := st.getD 0 0
  let b := st.getD 1 0
  let c := st.getD 2 0
  let d := st.getD 3 0
  let e := st.getD 4 0
  let f := st.getD 5 0
  let g := st.getD 6 0
  let h := st.getD 7 0
  let s1 := Nat.xor (Nat.xor (rotr32 6 e) (rotr32 11 e)) (rotr32 25 e)
  let ch := Nat.xor (Nat.land e f) (Nat.land (not32 e) g)
  let t1 := (h + s1 + ch + wk.2 + wk.1) % 2 ^ 32
  let s0 := Nat.xor (Nat.xor (rotr32 2 a) (rotr32 13 a)) (rotr32 22 a)
  let mj := Nat.xor (Nat.xor (Nat.land a b) (Nat.land a c)) (Nat.land b c)
  let t2 := (s0 + mj) % 2 ^ 32
  [(t1 + t2) % 2 ^ 32, a, b, c, (d + t1) % 2 ^ 32, e, f, g]

/-- Compress one block into the running hash value. -/
def sha256Compress (hv : List Nat) (block : List Nat) : List Nat :=
  let w := sha256Schedule block
  let st := (w.zip sha256K).foldl sha256Round hv
  (List.range 8).map (fun i => (hv.getD i 0 + st.getD i 0) % 2 ^ 32)

/-- The SHA-256 digest of a byte string, as eight 32-bit words. -/
def sha256Words (msg : List Nat) : List Nat :=
  (sha256Blocks (sha256Pad msg)).foldl sha256Compress sha256H0

/-- One lowercase hexadecimal digit. -/
def hexDigit (d : Nat) : Char :=
  Char.ofNat (if d < 10 then 48 + d else 87 + d)

/-- A 32-bit word as eight lowercase hex characters (big-endian). -/
def wordHex (w : Nat) : List Char :=
  (List.range 8).map (fun i => hexDigit (w / 16 ^ (7 - i) % 16))

/-- `hashlib.sha256(bs).hexdigest()`: the 64-character lowercase hex
digest of a byte string. -/
def sha256Hex (bs : List Nat) : String :=
  String.mk ((sha256Words bs).map wordHex).flatten

/-- `hashlib.sha256(s.encode()).hexdigest()[:10]` — the truncated digest
both modules use as the pseudonym of a (pre-stripped) string. -/
def pseudoOf (s : String) : String :=
  String.mk ((sha256Hex (utf8Bytes s)).data.take 10)

/-! ## Python dictionaries

A Python `dict` with string keys and values: an association list in
insertion order.  Assigning to an existing key updates the value in
place; assigning a fresh key appends. -/

/-- A Python string-to-string `dict`, in insertion order. -/
abbrev PyDict := List (String × String)

/-- `d[k] = v`: update in place if `k` is present, else append. -/
def dictInsert : PyDict → String → String → PyDict
  | [], k, v => [(k, v)]
  | p :: rest, k, v =>
    if p.1 = k then (k, v) :: rest else p :: dictInsert rest k v

/-- `d.get(k)`: the value at the first (hence only) occurrence of `k`. -/
def dictGet : PyDict → String → Option String
  | [], _ => none
  | p :: rest, k => if p.1 = k then some p.2 else dictGet rest k

/-- `d.update(d2)`: insert every entry of `d2` into `d`, in order. -/
def dictUpdate (d d2 : PyDict) : PyDict :=
  d2.foldl (fun acc p => dictInsert acc p.1 p.2) d

/-! ## Registries (`DD_Term_Storage.py`, `DD_Process_Storage.py`)

Each registry is a SQLite table with a single `UNIQUE` text column,
modelled as the list of stored rows in insertion order.  `INSERT OR
IGNORE` appends when the value is new and is a no-op otherwise. -/

/-- `INSERT OR IGNORE` into a table with a `UNIQUE` text column. -/
def insertOrIgnore (reg : List String) (t : String) : List String :=
  if t ∈ reg then reg else reg ++ [t]

/-- Helper for `splitComma`: accumulate the current field (reversed). -/
def splitCommaAux (acc : List Char) : List Char → List String
  | [] => [String.mk acc.reverse]
  | c :: rest =>
    if c = ',' then
      String.mk acc.reverse :: splitCommaAux [] rest
    else
      splitCommaAux (c :: acc) rest

/-- Python `s.split(',')`: split on every comma (`""` yields `[""]`). -/
def splitComma (s : String) : List String :=
  splitCommaAux [] s.data

/-- `DD_Term_Storage.store_terms` (lines 45–49): split the operator's
input on commas and `INSERT OR IGNORE` each entry *stripped*, with no
emptiness check. -/
def store_terms (reg : List String) (input : String) : List String :=
  (splitComma input).foldl (fun r term => insertOrIgnore r (pyStrip term)) reg

/-- `DD_Process_Storage.store_processes` (lines 56–62): split the
operator's input on commas, strip each entry, and `INSERT OR IGNORE` it
only when the cleaned entry is non-empty. -/
def store_processes (reg : List String) (input : String) : List String :=
  (splitComma input).foldl
    (fun r process =>
      let cleaned := pyStrip process
      if cleaned ≠ "" then insertOrIgnore r cleaned else r)
    reg

/-! ## DataFrames (`DD_Pseudonymization.py`)

A pandas DataFrame of text cells: named columns and rows of cells, a
cell being a string or `NaN` (`none`).  `DataFrame.replace` with a
scalar-to-scalar dict substitutes exactly those cells whose *entire*
value equals a dict key. -/

/-- A DataFrame cell: a string, or `NaN`. -/
abbrev Cell := Option String

/-- A pandas DataFrame of text cells. -/
structure DataFrame where
  cols : List String
  rows : List (List Cell)
deriving DecidableEq, Repr

/-- The cell at row `i`, column position `j` (`NaN` when out of range). -/
def DataFrame.cell (df : DataFrame) (i j : Nat) : Cell :=
  (df.rows.getD i []).getD j none

/-- The position of a column label (first occurrence), as pandas
resolves `df[name]`. -/
def colIndex (name : String) : List String → Option Nat
  | [] => none
  | c :: rest =>
    if c = name then some 0 else (colIndex name rest).map (· + 1)

/-- One cell under `DataFrame.replace(d)`: replaced exactly when the
whole value is a key of `d`; `NaN` stays `NaN`. -/
def replaceCell (d : PyDict) (c : Cell) : Cell :=
  match c with
  | none => none
  | some v =>
    match dictGet d v with
    | some p => some p
    | none => some v

/-- `data.replace(d)` (line 89): whole-value replacement in every cell
of every column. -/
def DataFrame.replaceAll (df : DataFrame) (d : PyDict) : DataFrame :=
  ⟨df.cols, df.rows.map (fun r => r.map (replaceCell d))⟩

/-- Replace the cell at position `j` of one row. -/
def replaceNth (d : PyDict) : Nat → List Cell → List Cell
  | _, [] => []
  | 0, c :: r => replaceCell d c :: r
  | j + 1, c :: r => c :: replaceNth d j r

/-- `data[name] = data[name].replace(d)` (line 116): whole-value
replacement in the named column only. -/
def DataFrame.replaceCol (df : DataFrame) (name : String) (d : PyDict) :
    DataFrame :=
  match colIndex name df.cols with
  | none => df
  | some j => ⟨df.cols, df.rows.map (replaceNth d j)⟩

/-- The column's values with `NaN` dropped and duplicates removed in
first-occurrence order: `data[name].dropna().unique()` (line 104). -/
def DataFrame.uniqueVals (df : DataFrame) (name : String) : List String :=
  let cells : List Cell :=
    match colIndex name df.cols with
    | none => []
    | some j => df.rows.map (fun r => r.getD j none)
  (cells.filterMap id).foldl
    (fun acc x => if x ∈ acc then acc else acc ++ [x]) []

/-! ## The forward transform (`DD_Pseudonymization.pseudonymize`)

The SQLite read of the `terms` table is the only fallible step; it is
passed in as an `Except`, and the module's `except sqlite3.Error:
return None, None` handler becomes the `Except.error` branch.  Rows of
the `terms` table are Python `str`, so the `isinstance` guards hold and
`if term` means `term ≠ ""`. -/

/-- A `sqlite3.Error` while reading a persisted store. -/
inductive StorageFailure where
  | sqliteError
deriving DecidableEq, Repr

/-- Lines 74–86: build `term_mapping`, skipping falsy (empty) terms and
keying by the stripped term. -/
def buildTermMapping (terms : List String) : PyDict :=
  terms.foldl
    (fun m term =>
      if term = "" then m
      else dictInsert m (pyStrip term) (pseudoOf (pyStrip term)))
    []

/-- Lines 103–113: build `entity_mapping` from the distinct non-null
values of the `External Entity` column, skipping values that strip to
the empty string and keying by the stripped value. -/
def buildEntityMapping (vals : List String) : PyDict :=
  vals.foldl
    (fun m e =>
      if pyStrip e = "" then m
      else dictInsert m (pyStrip e) (pseudoOf (pyStrip e)))
    []

/-- `DD_Pseudonymization.pseudonymize` (lines 53–136): scrub registered
terms in every column by whole-value replacement, then pseudonymize the
distinct values of the `External Entity` column when it exists (with a
warning, not an error, when it is missing), returning the transformed
frame and the session mapping; any `sqlite3.Error` yields `None`. -/
def pseudonymize (db : Except StorageFailure (List String))
    (data : DataFrame) : Option (DataFrame × PyDict) :=
  match db with
  | .error _ => none
  | .ok termsToPseudo =>
    let termMapping := buildTermMapping termsToPseudo
    let data1 := data.replaceAll termMapping
    let mapping := dictUpdate [] termMapping
    if "External Entity" ∈ data1.cols then
      let entityMapping := buildEntityMapping (data1.uniqueVals "External Entity")
      let data2 := data1.replaceCol "External Entity" entityMapping
      some (data2, dictUpdate mapping entityMapping)
    else
      some (data1, mapping)

/-! ## Result objects (`DD_Unpseudonymization.py`)

The reversal engine receives a JSON-serializable result object
(`Dict[str, Any]`), dumps it with `json.dumps`, performs Python
substring replacement for every mapping entry, and re-parses with
`json.loads` (a `JSONDecodeError` yields `None`).  `JVal` is the value
universe actually exchanged: strings, integers, booleans, `None`,
lists and string-keyed dicts (floats do not occur in this pipeline's
serialized results and are not modelled). -/

/-- A JSON-serializable Python value. -/
inductive JVal where
  | jstr : String → JVal
  | jnum : Int → JVal
  | jbool : Bool → JVal
  | jnull : JVal
  | jarr : List JVal → JVal
  | jobj : List (String × JVal) → JVal

/-- Decimal digits of a natural number (fuelled; `n + 1` is enough). -/
def natDecAux : Nat → Nat → List Char
  | 0, _ => []
  | fuel + 1, n =>
    if n < 10 then [Char.ofNat (48 + n)]
    else natDecAux fuel (n / 10) ++ [Char.ofNat (48 + n % 10)]

/-- The decimal representation of an integer, as Python prints it. -/
def intDec (i : Int) : List Char :=
  if i < 0 then '-' :: natDecAux (i.natAbs + 1) i.natAbs
  else natDecAux (i.natAbs + 1) i.natAbs

/-- `\uXXXX` escape(s) for a code point, with a surrogate pair beyond
the BMP, as `json.dumps` (with its default `ensure_ascii=True`) emits. -/
def uEscape (n : Nat) : List Char :=
  let quad : Nat → List Char := fun m =>
    '\\' :: 'u' :: (List.range 4).map (fun i => hexDigit (m / 16 ^ (3 - i) % 16))
  if n < 0x10000 then quad n
  else quad (0xd800 + (n - 0x10000) / 0x400) ++ quad (0xdc00 + (n - 0x10000) % 0x400)

/-- How `json.dumps` escapes one character inside a string literal. -/
def escapeChar (c : Char) : List Char :=
  if c = '"' then ['\\', '"']
  else if c = '\\' then ['\\', '\\']
  else if c = '\n' then ['\\', 'n']
  else if c = '\t' then ['\\', 't']
  else if c = '\x0d' then ['\\', 'r']
  else if c = '\x08' then ['\\', 'b']
  else if c = '\x0c' then ['\\', 'f']
  else if c.toNat < 0x20 || 0x7e < c.toNat then uEscape c.toNat
  else [c]

/-- A JSON string literal: quotes around the escaped characters. -/
def dumpsStr (s : String) : List Char :=
  '"' :: (s.data.map escapeChar).flatten ++ ['"']

mutual

/-- `json.dumps` with its default separators (`", "` and `": "`). -/
def dumpsVal : JVal → List Char
  | .jstr s => dumpsStr s
  | .jnum i => intDec i
  | .jbool b => if b then ['t', 'r', 'u', 'e'] else ['f', 'a', 'l', 's', 'e']
  | .jnull => ['n', 'u', 'l', 'l']
  | .jarr xs => '[' :: dumpsItems xs ++ [']']
  | .jobj ms => '\x7b' :: dumpsMembers ms ++ ['\x7d']

/-- Array items, `", "`-separated. -/
def dumpsItems : List JVal → List Char
  | [] => []
  | [x] => dumpsVal x
  | x :: xs => dumpsVal x ++ ',' :: ' ' :: dumpsItems xs

/-- Object members, `", "`-separated, `": "` after each key. -/
def dumpsMembers : List (String × JVal) → List Char
  | [] => []
  | [(k, v)] => dumpsStr k ++ ':' :: ' ' :: dumpsVal v
  | (k, v) :: ms =>
    dumpsStr k ++ ':' :: ' ' :: dumpsVal v ++ ',' :: ' ' :: dumpsMembers ms

end

/-- JSON whitespace, as `json.loads` skips it. -/
def jsonWS (c : Char) : Bool :=
  c = ' ' || c = '\t' || c = '\n' || c = '\x0d'

/-- The value of one hexadecimal digit, if it is one. -/
def hexVal (c : Char) : Option Nat :=
  if '0' ≤ c ∧ c ≤ '9' then some (c.toNat - 48)
  else if 'a' ≤ c ∧ c ≤ 'f' then some (c.toNat - 87)
  else if 'A' ≤ c ∧ c ≤ 'F' then some (c.toNat - 55)
  else none

/-- The code point of a `\uXXXX` quad. -/
def hexQuad (a b c d : Char) : Option Nat :=
  match hexVal a, hexVal b, hexVal c, hexVal d with
  | some x, some y, some z, some w => some (((x * 16 + y) * 16 + z) * 16 + w)
  | _, _, _, _ => none

/-- Parse the body of a JSON string literal (opening quote consumed):
the decoded characters and the rest of the input.  Surrogate pairs are
combined; a lone surrogate is rejected (Lean characters cannot carry
one; `json.loads` would accept it, but none arises in this pipeline). -/
def parseStrAux : Nat → List Char → Option (List Char × List Char)
  | 0, _ => none
  | fuel + 1, s =>
    match s with
    | [] => none
    | '"' :: rest => some ([], rest)
    | '\\' :: esc =>
      match esc with
      | 'u' :: a :: b :: c :: d :: rest2 =>
        match hexQuad a b c d with
        | none => none
        | some n =>
          if n < 0xd800 ∨ 0xdfff < n then
            (parseStrAux fuel rest2).map (fun p => (Char.ofNat n :: p.1, p.2))
          else if n < 0xdc00 then
            match rest2 with
            | '\\' :: 'u' :: a2 :: b2 :: c2 :: d2 :: rest3 =>
              match hexQuad a2 b2 c2 d2 with
              | some m =>
                if 0xdc00 ≤ m ∧ m ≤ 0xdfff then
                  (parseStrAux fuel rest3).map (fun p =>
                    (Char.ofNat (0x10000 + (n - 0xd800) * 0x400 + (m - 0xdc00)) :: p.1,
                     p.2))
                else none
              | none => none
            | _ => none
          else none
      | e :: rest2 =>
        let dec : Option Char :=
          if e = '"' then some '"'
          else if e = '\\' then some '\\'
          else if e = '/' then some '/'
          else if e = 'n' then some '\n'
          else if e = 't' then some '\t'
          else if e = 'r' then some '\x0d'
          else if e = 'b' then some '\x08'
          else if e = 'f' then some '\x0c'
          else none
        match dec with
        | some c => (parseStrAux fuel rest2).map (fun p => (c :: p.1, p.2))
        | none => none
      | [] => none
    | c :: rest =>
      if c.toNat < 0x20 then none
      else (parseStrAux fuel rest).map (fun p => (c :: p.1, p.2))

/-- The natural number named by a digit run. -/
def digitsToNat (ds : List Char) : Nat :=
  ds.foldl (fun n c => 10 * n + (c.toNat - 48)) 0

/-- Is `c` an ASCII digit? -/
def isDigitChar (c : Char) : Bool := '0' ≤ c && c ≤ '9'

/-- A run of digits and the rest (at least one digit required). -/
def parseIntDigits (s : List Char) : Option (Nat × List Char) :=
  let ds := s.takeWhile isDigitChar
  if ds = [] then none else some (digitsToNat ds, s.drop ds.length)

mutual

/-- Parse one JSON value (strict mode, integers only: a fraction or
exponent — which this pipeline never produces — is rejected). -/
def parseVal : Nat → List Char → Option (JVal × List Char)
  | 0, _ => none
  | fuel + 1, s =>
    match s.dropWhile jsonWS with
    | [] => none
    | '"' :: rest =>
      (parseStrAux fuel rest).map (fun p => (.jstr (String.mk p.1), p.2))
    | '[' :: rest =>
      match rest.dropWhile jsonWS with
      | ']' :: r2 => some (.jarr [], r2)
      | _ => (parseItems fuel rest).map (fun p => (.jarr p.1, p.2))
    | '\x7b' :: rest =>
      match rest.dropWhile jsonWS with
      | '\x7d' :: r2 => some (.jobj [], r2)
      | _ => (parseMembers fuel rest).map (fun p => (.jobj p.1, p.2))
    | 't' :: 'r' :: 'u' :: 'e' :: rest => some (.jbool true, rest)
    | 'f' :: 'a' :: 'l' :: 's' :: 'e' :: rest => some (.jbool false, rest)
    | 'n' :: 'u' :: 'l' :: 'l' :: rest => some (.jnull, rest)
    | '-' :: rest =>
      match parseIntDigits rest with
      | some (n, r2) => some (.jnum (-(n : Int)), r2)
      | none => none
    | c :: rest =>
      if isDigitChar c then
        match parseIntDigits (c :: rest) with
        | some (n, r2) => some (.jnum (n : Int), r2)
        | none => none
      else none

/-- Parse the items of a non-empty array, up to and including `]`. -/
def parseItems : Nat → List Char → Option (List JVal × List Char)
  | 0, _ => none
  | fuel + 1, s =>
    match parseVal fuel s with
    | none => none
    | some (v, r) =>
      match r.dropWhile jsonWS with
      | ',' :: r2 => (parseItems fuel r2).map (fun p => (v :: p.1, p.2))
      | ']' :: r2 => some ([v], r2)
      | _ => none

/-- Parse the members of a non-empty object, up to and including the
closing brace. -/
def parseMembers : Nat → List Char → Option (List (String × JVal) × List Char)
  | 0, _ => none
  | fuel + 1, s =>
    match s.dropWhile jsonWS with
    | '"' :: rest =>
      match parseStrAux fuel rest with
      | none => none
      | some (k, r) =>
        match r.dropWhile jsonWS with
        | ':' :: r2 =>
          match parseVal fuel r2 with
          | none => none
          | some (v, r3) =>
            match r3.dropWhile jsonWS with
            | ',' :: r4 =>
              (parseMembers fuel r4).map (fun p => ((String.mk k, v) :: p.1, p.2))
            | '\x7d' :: r4 => some ([(String.mk k, v)], r4)
            | _ => none
        | _ => none
    | _ => none

end

/-- `json.loads`: parse one value, requiring only whitespace after it;
`none` is the `JSONDecodeError` outcome. -/
def loads (s : List Char) : Option JVal :=
  match parseVal (2 * s.length + 2) s with
  | some (v, rest) => if rest.dropWhile jsonWS = [] then some v else none
  | none => none

/-- Python `str.replace(pat, rep)` on character lists: scan left to
right, substitute every non-overlapping occurrence, never rescanning
the substituted text (fuelled by the scanned length; the empty pattern
— impossible here, every pattern is a 10-character digest — leaves the
string unchanged rather than interleaving `rep` as Python would). -/
def pyReplaceAux (pat rep : List Char) : Nat → List Char → List Char
  | 0, s => s
  | fuel + 1, s =>
    match s with
    | [] => []
    | c :: rest =>
      if !pat.isEmpty && pat.isPrefixOf (c :: rest) then
        rep ++ pyReplaceAux pat rep fuel ((c :: rest).drop pat.length)
      else
        c :: pyReplaceAux pat rep fuel rest

/-! ## The reversal engine (`DD_Unpseudonymization.unpseudonymize`) -/

/-- Line 56: the reversal mapping, rebuilt from the persisted `terms`
table alone — each stored term is hashed (with *no* strip and no
emptiness guard) and the dict maps the truncated digest back to the
term; on equal digests the later term silently overwrites. -/
def buildReverseMapping (terms : List String) : PyDict :=
  terms.foldl (fun m term => dictInsert m (pseudoOf term) term) []

/-- `DD_Unpseudonymization.unpseudonymize` (lines 45–79): rebuild the
mapping from the `terms` table, `json.dumps` the result object, replace
every pseudonym substring with its original, and `json.loads` the
result; a `sqlite3.Error` or a `JSONDecodeError` yields `None`. -/
def unpseudonymize (db : Except StorageFailure (List String))
    (data : JVal) : Option JVal :=
  match db with
  | .error _ => none
  | .ok terms =>
    let mapping := buildReverseMapping terms
    let dataStr := dumpsVal data
    let replaced :=
      mapping.foldl (fun s p => pyReplaceAux p.1.data p.2.data s.length s) dataStr
    loads replaced

/-- A pseudonymized record set, serialized in record orientation as the
result object handed to the reversal engine. -/
def dfToObj (df : DataFrame) : JVal :=
  .jarr (df.rows.map (fun r =>
    .jobj (df.cols.zip (r.map (fun c =>
      match c with
      | none => JVal.jnull
      | some s => JVal.jstr s)))))

/-- Forward transform, then reversal of the serialized output against
the same persisted term registry. -/
def roundTrip (terms : List String) (df : DataFrame) : Option JVal :=
  match pseudonymize (.ok terms) df with
  | none => none
  | some (out, _) => unpseudonymize (.ok terms) (dfToObj out)

/-! ## Dictionary and frame lemmas -/

theorem dictGet_dictInsert :
    ∀ (m : PyDict) (k v k' : String),
      dictGet (dictInsert m k v) k' = if k = k' then some v else dictGet m k'
  | [], k, v, k' => by simp [dictInsert, dictGet]
  | (a, b) :: rest, k, v, k' => by
    by_cases hak : a = k
    · subst hak
      by_cases hk : a = k' <;> simp [dictInsert, dictGet, hk]
    · by_cases hk : k = k'
      · subst hk
        simp [dictInsert, dictGet, hak, dictGet_dictInsert rest]
      · by_cases ha : a = k'
        · subst ha
          simp [dictInsert, dictGet, hak, hk]
        · simp [dictInsert, dictGet, hak, ha, hk, dictGet_dictInsert rest]

theorem replaceCell_none (d : PyDict) : replaceCell d none = none := rfl

theorem getD_map_rows (f : List Cell → List Cell) (hf : f [] = []) :
    ∀ (l : List (List Cell)) (i : Nat), (l.map f).getD i [] = f (l.getD i [])
  | [], 0 => by simp [hf]
  | [], _ + 1 => by simp [hf]
  | _ :: _, 0 => by simp
  | _ :: l, n + 1 => by simpa using getD_map_rows f hf l n

theorem getD_map_cell (g : Cell → Cell) (hg : g none = none) :
    ∀ (r : List Cell) (j : Nat), (r.map g).getD j none = g (r.getD j none)
  | [], 0 => by simp [hg]
  | [], _ + 1 => by simp [hg]
  | _ :: _, 0 => by simp
  | _ :: r, j + 1 => by simpa using getD_map_cell g hg r j

theorem cell_replaceAll (df : DataFrame) (d : PyDict) (i j : Nat) :
    (df.replaceAll d).cell i j = replaceCell d (df.cell i j) := by
  show ((df.rows.map fun r => r.map (replaceCell d)).getD i []).getD j none = _
  rw [getD_map_rows (fun r => r.map (replaceCell d)) rfl,
    getD_map_cell (replaceCell d) rfl]
  rfl

theorem replaceNth_nil (d : PyDict) (j : Nat) : replaceNth d j [] = [] := by
  cases j <;> rfl

theorem getD_replaceNth_self (d : PyDict) :
    ∀ (r : List Cell) (j : Nat),
      (replaceNth d j r).getD j none = replaceCell d (r.getD j none)
  | [], j => by cases j <;> simp [replaceNth, replaceCell_none]
  | _ :: _, 0 => by simp [replaceNth]
  | _ :: r, j + 1 => by simpa [replaceNth] using getD_replaceNth_self d r j

theorem getD_replaceNth_ne (d : PyDict) :
    ∀ (r : List Cell) (j j' : Nat), j' ≠ j →
      (replaceNth d j r).getD j' none = r.getD j' none
  | [], j, j', _ => by rw [replaceNth_nil]
  | _ :: _, 0, 0, h => absurd rfl h
  | _ :: _, 0, _ + 1, _ => by simp [replaceNth]
  | _ :: _, _ + 1, 0, _ => by simp [replaceNth]
  | _ :: r, j + 1, j' + 1, h => by
    simpa [replaceNth] using getD_replaceNth_ne d r j j' (fun hh => h (by rw [hh]))

theorem colIndex_getD :
    ∀ (cols : List String) (name : String) (j : Nat),
      colIndex name cols = some j → cols.getD j "" = name
  | [], name, j, h => by simp [colIndex] at h
  | c :: rest, name, j, h => by
    by_cases hc : c = name
    · simp [colIndex, hc] at h
      simp [← h, hc]
    · simp [colIndex, hc] at h
      obtain ⟨j0, hj0, rfl⟩ := h
      simpa using colIndex_getD rest name j0 hj0

theorem colIndex_eq_none :
    ∀ (cols : List String) (name : String),
      colIndex name cols = none ↔ name ∉ cols
  | [], name => by simp [colIndex]
  | c :: rest, name => by
    by_cases hc : c = name
    · simp [colIndex, hc]
    · simp [colIndex, hc, colIndex_eq_none rest name, Ne.symm hc]

theorem cell_replaceCol_ne (df : DataFrame) (name : String) (d : PyDict)
    (i j : Nat) (hj : colIndex name df.cols ≠ some j) :
    (df.replaceCol name d).cell i j = df.cell i j := by
  unfold DataFrame.replaceCol
  cases hidx : colIndex name df.cols with
  | none => rfl
  | some j0 =>
    show ((df.rows.map (replaceNth d j0)).getD i []).getD j none = _
    rw [getD_map_rows (replaceNth d j0) (replaceNth_nil d j0)]
    exact getD_replaceNth_ne d _ j0 j (fun hh => hj (hh ▸ hidx))

theorem cell_replaceCol_self (df : DataFrame) (name : String) (d : PyDict)
    (i j : Nat) (hj : colIndex name df.cols = some j) :
    (df.replaceCol name d).cell i j = replaceCell d (df.cell i j) := by
  unfold DataFrame.replaceCol
  rw [hj]
  show ((df.rows.map (replaceNth d j)).getD i []).getD j none = _
  rw [getD_map_rows (replaceNth d j) (replaceNth_nil d j)]
  exact getD_replaceNth_self d _ j

theorem buildTermMapping_get_aux :
    ∀ (ts : List String) (m : PyDict) (k : String),
      dictGet (ts.foldl (fun acc term =>
          if term = "" then acc
          else dictInsert acc (pyStrip term) (pseudoOf (pyStrip term))) m) k =
        if ∃ t ∈ ts, ¬t = "" ∧ pyStrip t = k then some (pseudoOf k)
        else dictGet m k
  | [], m, k => by simp
  | t :: ts, m, k => by
    rw [List.foldl_cons, buildTermMapping_get_aux ts _ k]
    by_cases h1 : t = ""
    · simp [h1]
    · by_cases h2 : pyStrip t = k
      · subst h2
        by_cases h3 : ∃ x ∈ ts, ¬x = "" ∧ pyStrip x = pyStrip t
        · simp [h1, h3]
        · simp [h1, h3, dictGet_dictInsert]
      · simp only [h1, if_false, dictGet_dictInsert, h2, if_neg h2]
        by_cases h3 : ∃ x ∈ ts, ¬x = "" ∧ pyStrip x = k
        · simp [h1, h2, h3]
        · simp [h1, h2, h3]

/-- Lookup in the term mapping of lines 74–86: the stripped form of a
non-empty registered term maps to its truncated digest; nothing else is
a key. -/
theorem buildTermMapping_get (terms : List String) (k : String) :
    dictGet (buildTermMapping terms) k =
      if ∃ t ∈ terms, ¬t = "" ∧ pyStrip t = k then some (pseudoOf k)
      else none := by
  unfold buildTermMapping
  rw [buildTermMapping_get_aux]
  rfl

theorem buildEntityMapping_get_aux :
    ∀ (vs : List String) (m : PyDict) (k : String),
      dictGet (vs.foldl (fun acc e =>
          if pyStrip e = "" then acc
          else dictInsert acc (pyStrip e) (pseudoOf (pyStrip e))) m) k =
        if ∃ e ∈ vs, ¬pyStrip e = "" ∧ pyStrip e = k then some (pseudoOf k)
        else dictGet m k
  | [], m, k => by simp
  | e :: vs, m, k => by
    rw [List.foldl_cons, buildEntityMapping_get_aux vs _ k]
    by_cases h1 : pyStrip e = ""
    · simp [h1]
    · by_cases h2 : pyStrip e = k
      · subst h2
        by_cases h3 : ∃ x ∈ vs, ¬pyStrip x = "" ∧ pyStrip x = pyStrip e
        · simp [h1, h3]
        · simp [h1, h3, dictGet_dictInsert]
      · simp only [h1, if_false, dictGet_dictInsert, h2, if_neg h2]
        by_cases h3 : ∃ x ∈ vs, ¬pyStrip x = "" ∧ pyStrip x = k
        · simp [h1, h2, h3]
        · simp [h1, h2, h3]

/-- Lookup in the entity mapping of lines 103–113. -/
theorem buildEntityMapping_get (vals : List String) (k : String) :
    dictGet (buildEntityMapping vals) k =
      if ∃ e ∈ vals, ¬pyStrip e = "" ∧ pyStrip e = k then some (pseudoOf k)
      else none := by
  unfold buildEntityMapping
  rw [buildEntityMapping_get_aux]
  rfl

theorem revfold_get_of_not_mem :
    ∀ (l : List String) (m : PyDict) (k : String), k ∉ l.map pseudoOf →
      dictGet (l.foldl (fun acc t => dictInsert acc (pseudoOf t) t) m) k =
        dictGet m k
  | [], m, k, _ => rfl
  | t :: l, m, k, h => by
    rw [List.foldl_cons,
      revfold_get_of_not_mem l _ k (fun hm => h (List.mem_cons_of_mem _ hm)),
      dictGet_dictInsert]
    refine if_neg (fun he => h ?_)
    rw [List.map_cons, ← he]
    exact List.mem_cons_self _ _

theorem revfold_get_of_nodup :
    ∀ (l : List String) (m : PyDict) (t : String), t ∈ l →
      (l.map pseudoOf).Nodup →
      dictGet (l.foldl (fun acc t => dictInsert acc (pseudoOf t) t) m) (pseudoOf t) =
        some t
  | [], _, _, ht, _ => absurd ht (List.not_mem_nil _)
  | t' :: l, m, t, ht, hnd => by
    rw [List.map_cons, List.nodup_cons] at hnd
    rcases List.mem_cons.mp ht with rfl | htl
    · rw [List.foldl_cons, revfold_get_of_not_mem l _ _ hnd.1,
        dictGet_dictInsert, if_pos rfl]
    · rw [List.foldl_cons]
      exact revfold_get_of_nodup l _ t htl hnd.2

/-- Lookup in the reversal mapping of line 56, when the registered
terms' truncated digests are pairwise distinct. -/
theorem buildReverseMapping_get (terms : List String) (t : String)
    (ht : t ∈ terms) (hnd : (terms.map pseudoOf).Nodup) :
    dictGet (buildReverseMapping terms) (pseudoOf t) = some t :=
  revfold_get_of_nodup terms [] t ht hnd

/-! ## Registry membership lemmas -/

theorem mem_insertOrIgnore (reg : List String) (t x : String) :
    x ∈ insertOrIgnore reg t ↔ x ∈ reg ∨ x = t := by
  unfold insertOrIgnore
  split
  · constructor
    · exact Or.inl
    · rintro (h | rfl)
      · exact h
      · assumption
  · simp

theorem mem_store_terms_aux :
    ∀ (fs : List String) (reg : List String) (x : String),
      x ∈ fs.foldl (fun r term => insertOrIgnore r (pyStrip term)) reg ↔
        x ∈ reg ∨ ∃ f ∈ fs, pyStrip f = x
  | [], reg, x => by simp
  | f :: fs, reg, x => by
    rw [List.foldl_cons, mem_store_terms_aux fs _ x, mem_insertOrIgnore]
    constructor
    · rintro ((h | rfl) | ⟨g, hg, hgx⟩)
      · exact Or.inl h
      · exact Or.inr ⟨f, List.mem_cons_self _ _, rfl⟩
      · exact Or.inr ⟨g, List.mem_cons_of_mem _ hg, hgx⟩
    · rintro (h | ⟨g, hg, hgx⟩)
      · exact Or.inl (Or.inl h)
      · rcases List.mem_cons.mp hg with rfl | hg2
        · exact Or.inl (Or.inr hgx.symm)
        · exact Or.inr ⟨g, hg2, hgx⟩

theorem mem_store_processes_aux :
    ∀ (fs : List String) (reg : List String) (x : String),
      x ∈ fs.foldl (fun r process =>
          let cleaned := pyStrip process
          if cleaned ≠ "" then insertOrIgnore r cleaned else r) reg ↔
        x ∈ reg ∨ ∃ f ∈ fs, ¬pyStrip f = "" ∧ pyStrip f = x
  | [], reg, x => by simp
  | f :: fs, reg, x => by
    rw [List.foldl_cons, mem_store_processes_aux fs _ x]
    by_cases h1 : pyStrip f = ""
    · simp only [h1, ne_eq, not_true_eq_false, if_false]
      constructor
      · rintro (h | ⟨g, hg, hgx⟩)
        · exact Or.inl h
        · exact Or.inr ⟨g, List.mem_cons_of_mem _ hg, hgx⟩
      · rintro (h | ⟨g, hg, hg0, hgx⟩)
        · exact Or.inl h
        · rcases List.mem_cons.mp hg with rfl | hg2
          · exact absurd h1 hg0
          · exact Or.inr ⟨g, hg2, hg0, hgx⟩
    · simp only [h1, ne_eq, not_false_eq_true, if_true, mem_insertOrIgnore]
      constructor
      · rintro ((h | rfl) | ⟨g, hg, hgx⟩)
        · exact Or.inl h
        · exact Or.inr ⟨f, List.mem_cons_self _ _, h1, rfl⟩
        · exact Or.inr ⟨g, List.mem_cons_of_mem _ hg, hgx⟩
      · rintro (h | ⟨g, hg, hg0, hgx⟩)
        · exact Or.inl (Or.inl h)
        · rcases List.mem_cons.mp hg with rfl | hg2
          · exact Or.inl (Or.inr hgx.symm)
          · exact Or.inr ⟨g, hg2, hg0, hgx⟩

/-- Membership in the terms registry after `store_terms`: every comma
field is stripped and inserted, the empty string included. -/
theorem mem_store_terms (reg : List String) (input : String) (x : String) :
    x ∈ store_terms reg input ↔
      x ∈ reg ∨ ∃ f ∈ splitComma input, pyStrip f = x :=
  mem_store_terms_aux (splitComma input) reg x

/-- Membership in the process registry after `store_processes`: only
fields that strip to something non-empty are inserted. -/
theorem mem_store_processes (reg : List String) (input : String) (x : String) :
    x ∈ store_processes reg input ↔
      x ∈ reg ∨ ∃ f ∈ splitComma input, ¬pyStrip f = "" ∧ pyStrip f = x :=
  mem_store_processes_aux (splitComma input) reg x

/-! ## Unfolding the forward transform -/

/-- `pseudonymize` on a successful registry read, unfolded. -/
theorem pseudonymize_ok_def (terms : List String) (df : DataFrame) :
    pseudonymize (.ok terms) df =
      if "External Entity" ∈ df.cols then
        some ((df.replaceAll (buildTermMapping terms)).replaceCol
                "External Entity"
                (buildEntityMapping
                  ((df.replaceAll (buildTermMapping terms)).uniqueVals
                    "External Entity")),
              dictUpdate (dictUpdate [] (buildTermMapping terms))
                (buildEntityMapping
                  ((df.replaceAll (buildTermMapping terms)).uniqueVals
                    "External Entity")))
      else
        some (df.replaceAll (buildTermMapping terms),
              dictUpdate [] (buildTermMapping terms)) := rfl

theorem sha256Hex_empty :
    sha256Hex [] =
      "e3b0c44298fc1c149afbf4c8996fb92427ae41e4649b934ca495991b7852b855" := by
  decide

/-! ## Claims

Concrete scenarios are built from the spec's §8 end-to-end example —
a registry holding the single term Acme Corp, and an identity column
named External Entity holding Acme Corp and Globex — and from
engineered collision inputs. -/

/-- The §8 scenario record set: the identity column and a `Notes`
column, with the registered term both as an identity value and as a
whole `Notes` value. -/
def dfC1 : DataFrame :=
  ⟨["External Entity", "Notes"],
   [[some "Acme Corp", some "Acme Corp"], [some "Globex", some "note text"]]⟩

/-- What the round trip actually returns on `dfC1`: the `Notes` term is
restored, but the identity column keeps pseudonyms — `"Acme Corp"`
comes back as the digest of its digest, `"Globex"` as its digest. -/
def restoredC1 : JVal :=
  .jarr
    [.jobj [("External Entity", .jstr "f31a856859"), ("Notes", .jstr "Acme Corp")],
     .jobj [("External Entity", .jstr "9b4ed45bf9"), ("Notes", .jstr "note text")]]

/-- C1 (counterexample): the round-trip law fails on the spec's own
end-to-end scenario — reversing the forward transform's output does
not reproduce the original record set. -/
theorem C1_counterexample :
    roundTrip ["Acme Corp"] dfC1 ≠ some (dfToObj dfC1) := by
  intro h
  have he : roundTrip ["Acme Corp"] dfC1 = some restoredC1 := rfl
  rw [he] at h
  exact absurd (congrArg dumpsVal (Option.some.inj h)) (by decide)

/-- C1 (amended): the round trip restores registered-term occurrences
outside the identity column, but leaves the identity column
pseudonymized — identity values not in the registry stay as their
digests, and registry terms in the identity column are doubly
digested — so pseudonym tokens remain in the restored output. -/
theorem C1_roundtrip_amended :
    roundTrip ["Acme Corp"] dfC1 = some restoredC1 ∧
    restoredC1 ≠ dfToObj dfC1 :=
  ⟨rfl, fun h => absurd (congrArg dumpsVal h) (by decide)⟩

/-- A record set holding the two engineered collision inputs. -/
def dfC2 : DataFrame :=
  ⟨["Notes"], [[some "Entity0829654"], [some "Entity1254799"]]⟩

/-- C2: two distinct originals whose truncated digests coincide are
accepted without any error: `pseudonymize` maps both onto the single
pseudonym `"026b2bf714"` (a silent merge), and the reversal mapping
resolves that pseudonym to whichever original came later — there is no
`CollisionError` anywhere in the code. -/
theorem C2_collision_merge :
    "Entity0829654" ≠ "Entity1254799" ∧
    pseudoOf "Entity0829654" = "026b2bf714" ∧
    pseudoOf "Entity1254799" = "026b2bf714" ∧
    pseudonymize (.ok ["Entity0829654", "Entity1254799"]) dfC2 =
      some (⟨["Notes"], [[some "026b2bf714"], [some "026b2bf714"]]⟩,
            [("Entity0829654", "026b2bf714"), ("Entity1254799", "026b2bf714")]) ∧
    dictGet (buildReverseMapping ["Entity0829654", "Entity1254799"])
        "026b2bf714" =
      some "Entity1254799" :=
  ⟨by decide, by decide, by decide, rfl, by decide⟩

/-- The generator algorithm in the spec's words (§4.3): a 256-bit
digest of the UTF-8 encoding of the trimmed input, truncated to a
10-character hexadecimal prefix.  Stated from the spec, for comparison
with the code's `pseudoOf ∘ pyStrip`. -/
def specGenerate (s : String) : String :=
  String.mk ((sha256Hex (utf8Bytes (pyStrip s))).data.take 10)

/-- C3: pseudonym generation is deterministic (a pure function of the
input string, no salt or per-run randomness in lines 76–78/105–108)
and equals the first 10 hex characters of the SHA-256 digest of the
UTF-8 encoding of the trimmed input; the digest implementation is
pinned by the FIPS 180-4 `"abc"` test vector, and trimming is
exercised on a concrete padded input. -/
theorem C3_generator_spec :
    (∀ s : String, pseudoOf (pyStrip s) = specGenerate s) ∧
    sha256Hex (utf8Bytes "abc") =
      "ba7816bf8f01cfea414140de5dae2223b00361a396177a9cb410ff61f20015ad" ∧
    specGenerate " Acme " = "37036cd8f9" ∧
    specGenerate "Acme" = "37036cd8f9" :=
  ⟨fun _ => rfl, by decide, by decide, by decide⟩

/-- C3 (witness): the generator law evaluated at a concrete input. -/
theorem C3_generator_spec_witness :
    pseudoOf (pyStrip " Acme ") = specGenerate " Acme " :=
  C3_generator_spec.1 " Acme "

/-- C4: the forward transform substitutes by whole-field-value match
only — any cell outside the identity column whose entire value equals
no registered term's stripped form passes through unchanged, however
many registered terms it *contains* as substrings. -/
theorem C4_whole_value_match (terms : List String) (df out : DataFrame)
    (m : PyDict) (h : pseudonymize (.ok terms) df = some (out, m))
    (i j : Nat) (v : String) (hv : df.cell i j = some v)
    (hid : df.cols.getD j "" ≠ "External Entity")
    (hsub : ∀ t ∈ terms, v ≠ pyStrip t) :
    out.cell i j = some v := by
  have hget : dictGet (buildTermMapping terms) v = none := by
    rw [buildTermMapping_get, if_neg]
    rintro ⟨t, ht, _, hts⟩
    exact hsub t ht hts.symm
  have hterm : replaceCell (buildTermMapping terms) (some v) = some v := by
    simp [replaceCell, hget]
  rw [pseudonymize_ok_def] at h
  by_cases hcol : "External Entity" ∈ df.cols
  · rw [if_pos hcol, Option.some_inj, Prod.mk.injEq] at h
    obtain ⟨h1, -⟩ := h
    have hj : colIndex "External Entity"
        (df.replaceAll (buildTermMapping terms)).cols ≠ some j := by
      intro hj
      exact hid (colIndex_getD df.cols "External Entity" j hj)
    rw [← h1, cell_replaceCol_ne _ _ _ i j hj, cell_replaceAll, hv, hterm]
  · rw [if_neg hcol, Option.some_inj, Prod.mk.injEq] at h
    obtain ⟨h1, -⟩ := h
    rw [← h1, cell_replaceAll, hv, hterm]

/-- A record set with a registered term as an identity value and a
longer narrative note containing the term as a substring. -/
def dfC4 : DataFrame :=
  ⟨["External Entity", "Notes"],
   [[some "Acme", some "Contact Acme Corp today"]]⟩

/-- C4 (witness): on `dfC4` with registry `["Acme"]` the narrative
note is untouched while the identity cell is substituted (twice: once
by the term pass, once by the entity pass over its output). -/
theorem C4_whole_value_match_witness :
    pseudonymize (.ok ["Acme"]) dfC4 =
      some (⟨["External Entity", "Notes"],
             [[some "5fe3e776aa", some "Contact Acme Corp today"]]⟩,
            [("Acme", "37036cd8f9"), ("37036cd8f9", "5fe3e776aa")]) ∧
    (⟨["External Entity", "Notes"],
      [[some "5fe3e776aa", some "Contact Acme Corp today"]]⟩ :
        DataFrame).cell 0 1 = some "Contact Acme Corp today" :=
  ⟨rfl,
   C4_whole_value_match ["Acme"] dfC4
     ⟨["External Entity", "Notes"],
      [[some "5fe3e776aa", some "Contact Acme Corp today"]]⟩
     [("Acme", "37036cd8f9"), ("37036cd8f9", "5fe3e776aa")]
     rfl 0 1 "Contact Acme Corp today" rfl (by decide) (by decide)⟩

/-- A record set whose identity column holds a value that is not a
registered term. -/
def dfC5 : DataFrame := ⟨["External Entity"], [[some "Globex"]]⟩

/-- Forward output on `dfC5`: the identity value replaced by its
digest. -/
def outC5 : DataFrame := ⟨["External Entity"], [[some "9b4ed45bf9"]]⟩

/-- C5 (counterexample): the session mapping entry created for the
identity value `"Globex"` exists only in the returned in-memory dict —
nothing persists it — so a fresh-process reversal, which can rebuild
its mapping only from the persisted term registry, leaves the
pseudonym in place and does not recover the original. -/
theorem C5_counterexample :
    pseudonymize (.ok ["Acme Corp"]) dfC5 =
      some (outC5, [("Acme Corp", "a73cb4563e"), ("Globex", "9b4ed45bf9")]) ∧
    unpseudonymize (.ok ["Acme Corp"]) (dfToObj outC5) = some (dfToObj outC5) ∧
    dfToObj outC5 ≠ dfToObj dfC5 :=
  ⟨rfl, rfl, fun h => absurd (congrArg dumpsVal h) (by decide)⟩

/-- C5 (amended): only registered-term mappings survive a process
restart, because the reversal engine re-derives them by hashing the
persisted registry: for a registry of stripped, non-empty terms with
pairwise-distinct digests, the forward term mapping sends each term
`t` to `pseudoOf t` and a fresh reversal resolves `pseudoOf t` back to
`t`; identity-column mappings are in-memory only (see the
counterexample). -/
theorem C5_persistence_amended (terms : List String)
    (hclean : ∀ t ∈ terms, pyStrip t = t ∧ ¬t = "")
    (hinj : (terms.map pseudoOf).Nodup) (t : String) (ht : t ∈ terms) :
    dictGet (buildTermMapping terms) t = some (pseudoOf t) ∧
    dictGet (buildReverseMapping terms) (pseudoOf t) = some t := by
  constructor
  · rw [buildTermMapping_get,
      if_pos ⟨t, ht, (hclean t ht).2, (hclean t ht).1⟩]
  · exact buildReverseMapping_get terms t ht hinj

/-- C5 (witness): the amended persistence law on a two-term registry. -/
theorem C5_persistence_amended_witness :
    dictGet (buildTermMapping ["Acme Corp", "Globex"]) "Globex" =
      some (pseudoOf "Globex") ∧
    dictGet (buildReverseMapping ["Acme Corp", "Globex"]) (pseudoOf "Globex") =
      some "Globex" :=
  C5_persistence_amended ["Acme Corp", "Globex"] (by decide) (by decide)
    "Globex" (by decide)

/-- A result object holding the pseudonym of the registered term
`A"B`, whose restoration breaks the JSON serialization. -/
def objC6 : JVal := .jobj [("k", .jstr "4c47d10110")]

/-- C6 (counterexample): when restoration fails (here the replaced
serialization no longer parses, the `JSONDecodeError` path), the
engine returns `None` — it does not return the original
still-pseudonymized object, nor any object at all. -/
theorem C6_counterexample :
    unpseudonymize (.ok ["A\"B"]) objC6 = none ∧
    ∀ r : JVal, unpseudonymize (.ok ["A\"B"]) objC6 ≠ some r :=
  ⟨rfl, fun _ h => Option.noConfusion h⟩

/-- C6 (amended): on failure — a mapping-store read error or a result
object that no longer parses after substitution — `unpseudonymize`
returns `None` (the error signal), never a partially restored object:
any returned object is exactly the re-parse of the serialization with
*every* mapping entry's substitution applied.  The caller's input
object is left unmodified but is not itself returned. -/
theorem C6_failure_amended :
    (∀ (e : StorageFailure) (d : JVal), unpseudonymize (.error e) d = none) ∧
    (∀ (terms : List String) (d r : JVal),
      unpseudonymize (.ok terms) d = some r →
        loads ((buildReverseMapping terms).foldl
          (fun s p => pyReplaceAux p.1.data p.2.data s.length s)
          (dumpsVal d)) = some r) :=
  ⟨fun _ _ => rfl, fun _ _ _ h => h⟩

/-- C6 (witness): the amended failure law at concrete inputs. -/
theorem C6_failure_amended_witness :
    unpseudonymize (.error .sqliteError) (.jstr "x") = none ∧
    loads ((buildReverseMapping []).foldl
      (fun s p => pyReplaceAux p.1.data p.2.data s.length s)
      (dumpsVal .jnull)) = some .jnull :=
  ⟨C6_failure_amended.1 .sqliteError (.jstr "x"),
   C6_failure_amended.2 [] .jnull .jnull rfl⟩

/-- A record set without the `External Entity` column. -/
def dfC7 : DataFrame := ⟨["Notes"], [[some "Acme"]]⟩

/-- C7 (counterexample): with the identity column absent,
`pseudonymize` does not fail — it returns the term-scrubbed record
set (and its mapping), merely skipping identity-column scrubbing. -/
theorem C7_counterexample :
    pseudonymize (.ok ["Acme"]) dfC7 =
      some (⟨["Notes"], [[some "37036cd8f9"]]⟩, [("Acme", "37036cd8f9")]) ∧
    pseudonymize (.ok ["Acme"]) dfC7 ≠ none :=
  ⟨rfl, fun h => Option.noConfusion h⟩

/-- C7 (amended): when the designated identity column is absent, the
forward transform prints a warning, skips identity-column scrubbing,
and still returns the term-scrubbed record set with the term mapping —
the graceful-degrade behaviour, not a typed `SchemaError` failure. -/
theorem C7_missing_column_amended (terms : List String) (df : DataFrame)
    (h : "External Entity" ∉ df.cols) :
    pseudonymize (.ok terms) df =
      some (df.replaceAll (buildTermMapping terms),
            dictUpdate [] (buildTermMapping terms)) := by
  rw [pseudonymize_ok_def, if_neg h]

/-- A record set with only process data, no identity column. -/
def dfC7w : DataFrame := ⟨["Core Process"], [[some "Billing"]]⟩

/-- C7 (witness): the amended missing-column law at a concrete
record set. -/
theorem C7_missing_column_amended_witness :
    pseudonymize (.ok ["Zeta"]) dfC7w =
      some (dfC7w.replaceAll (buildTermMapping ["Zeta"]),
            dictUpdate [] (buildTermMapping ["Zeta"])) :=
  C7_missing_column_amended ["Zeta"] dfC7w (by decide)

theorem replaceCol_cols (df : DataFrame) (name : String) (d : PyDict) :
    (df.replaceCol name d).cols = df.cols := by
  unfold DataFrame.replaceCol
  cases colIndex name df.cols <;> rfl

theorem replaceAll_cols (df : DataFrame) (d : PyDict) :
    (df.replaceAll d).cols = df.cols := rfl

/-- C8: the forward transform is all-or-nothing.  A storage failure
while reading the registry aborts the whole call with the `None`
failure result (and, the model being pure, the input frame is
untouched); a successful call returns a *completely* transformed
frame — every cell of every row carries the term-pass substitution,
with the entity-pass substitution on top exactly in the identity
column.  No `CollisionError` exists in the code to interrupt it
(cf. the C2 collision analysis). -/
theorem C8_all_or_nothing (db : Except StorageFailure (List String))
    (df : DataFrame) :
    (∀ e : StorageFailure, db = .error e → pseudonymize db df = none) ∧
    (∀ terms out m, db = .ok terms →
      pseudonymize db df = some (out, m) →
      out.cols = df.cols ∧
      ∀ i j,
        (colIndex "External Entity" df.cols = some j →
          out.cell i j =
            replaceCell
              (buildEntityMapping
                ((df.replaceAll (buildTermMapping terms)).uniqueVals
                  "External Entity"))
              (replaceCell (buildTermMapping terms) (df.cell i j))) ∧
        (colIndex "External Entity" df.cols ≠ some j →
          out.cell i j = replaceCell (buildTermMapping terms) (df.cell i j))) := by
  constructor
  · rintro e rfl
    rfl
  · rintro terms out m rfl h
    rw [pseudonymize_ok_def] at h
    by_cases hcol : "External Entity" ∈ df.cols
    · rw [if_pos hcol, Option.some_inj, Prod.mk.injEq] at h
      obtain ⟨h1, -⟩ := h
      refine ⟨by rw [← h1, replaceCol_cols, replaceAll_cols],
        fun i j => ⟨fun hidx => ?_, fun hidx => ?_⟩⟩
      · have hidx2 : colIndex "External Entity"
            (df.replaceAll (buildTermMapping terms)).cols = some j := hidx
        rw [← h1, cell_replaceCol_self _ _ _ i j hidx2, cell_replaceAll]
      · have hidx2 : colIndex "External Entity"
            (df.replaceAll (buildTermMapping terms)).cols ≠ some j := hidx
        rw [← h1, cell_replaceCol_ne _ _ _ i j hidx2, cell_replaceAll]
    · rw [if_neg hcol, Option.some_inj, Prod.mk.injEq] at h
      obtain ⟨h1, -⟩ := h
      refine ⟨by rw [← h1, replaceAll_cols], fun i j => ⟨fun hidx => ?_,
        fun _ => by rw [← h1, cell_replaceAll]⟩⟩
      rw [(colIndex_eq_none df.cols "External Entity").mpr hcol] at hidx
      exact Option.noConfusion hidx

/-- A one-cell record set for exercising the all-or-nothing law. -/
def dfC8 : DataFrame := ⟨["Col"], [[some "w"]]⟩

/-- C8 (witness): the all-or-nothing law at concrete inputs — a
storage failure yields `None`, and a successful run preserves the
column list. -/
theorem C8_all_or_nothing_witness :
    pseudonymize (.error .sqliteError) dfC8 = none ∧
    (⟨["Col"], [[some "50e721e49c"]]⟩ : DataFrame).cols = dfC8.cols :=
  ⟨(C8_all_or_nothing (.error .sqliteError) dfC8).1 .sqliteError rfl,
   ((C8_all_or_nothing (.ok ["w"]) dfC8).2 ["w"]
     ⟨["Col"], [[some "50e721e49c"]]⟩ [("w", "50e721e49c")] rfl rfl).1⟩

/-- C9 (counterexample): `store_terms` does not skip whitespace-only
entries — the field `" "` of the input `" , Acme "` strips to the
empty string and is inserted, so the terms registry ends up containing
the empty term. -/
theorem C9_counterexample :
    store_terms [] " , Acme " = ["", "Acme"] ∧
    "" ∈ store_terms [] " , Acme " :=
  ⟨rfl, by decide⟩

/-- C9 (amended): only `store_processes` rejects empty and
whitespace-only entries silently; `store_terms` strips each
comma-separated field and inserts it (deduplicated) even when the
stripped field is empty, so the terms registry may contain the empty
term while the process registry never gains one. -/
theorem C9_registry_amended :
    (∀ (reg : List String) (input : String) (x : String),
      x ∈ store_terms reg input ↔
        x ∈ reg ∨ ∃ f ∈ splitComma input, pyStrip f = x) ∧
    (∀ (reg : List String) (input : String),
      "" ∉ reg → "" ∉ store_processes reg input) := by
  refine ⟨mem_store_terms, fun reg input h0 hmem => ?_⟩
  rcases (mem_store_processes reg input "").mp hmem with h | ⟨f, _, hf0, hfe⟩
  · exact h0 h
  · exact hf0 hfe

/-- C9 (witness): the amended registry law at concrete inputs. -/
theorem C9_registry_amended_witness :
    ("beta" ∈ store_terms [] " beta ") ∧
    "" ∉ store_processes [] " ; ,x" :=
  ⟨(C9_registry_amended.1 [] " beta " "beta").mpr
     (Or.inr ⟨" beta ", by decide, by decide⟩),
   C9_registry_amended.2 [] " ; ,x" (by decide)⟩

/-- C10: term scrubbing is applied to *every* column — the term pass
replaces a whole-cell occurrence of a registered term's stripped form
in any column, the identity column included — and the identity-column
substitution is applied afterwards, on top of the term pass's
output. -/
theorem C10_terms_before_identity (terms : List String) (df : DataFrame)
    (t : String) (ht : t ∈ terms) (ht0 : ¬t = "")
    (i j : Nat) (hv : df.cell i j = some (pyStrip t)) :
    (df.replaceAll (buildTermMapping terms)).cell i j =
      some (pseudoOf (pyStrip t)) ∧
    (∀ out m, pseudonymize (.ok terms) df = some (out, m) →
      out =
        if "External Entity" ∈ df.cols then
          (df.replaceAll (buildTermMapping terms)).replaceCol
            "External Entity"
            (buildEntityMapping
              ((df.replaceAll (buildTermMapping terms)).uniqueVals
                "External Entity"))
        else df.replaceAll (buildTermMapping terms)) := by
  constructor
  · rw [cell_replaceAll, hv]
    have hget : dictGet (buildTermMapping terms) (pyStrip t) =
        some (pseudoOf (pyStrip t)) := by
      rw [buildTermMapping_get, if_pos ⟨t, ht, ht0, rfl⟩]
    simp [replaceCell, hget]
  · intro out m h
    rw [pseudonymize_ok_def] at h
    by_cases hcol : "External Entity" ∈ df.cols
    · rw [if_pos hcol, Option.some_inj, Prod.mk.injEq] at h
      rw [if_pos hcol, ← h.1]
    · rw [if_neg hcol, Option.some_inj, Prod.mk.injEq] at h
      rw [if_neg hcol, ← h.1]

/-- A record set whose identity column holds a registered term. -/
def dfC10 : DataFrame := ⟨["External Entity"], [[some "Initech"]]⟩

/-- C10 (witness): the term pass substitutes the registered term
inside the identity column itself. -/
theorem C10_terms_before_identity_witness :
    (dfC10.replaceAll (buildTermMapping ["Initech"])).cell 0 0 =
      some (pseudoOf (pyStrip "Initech")) :=
  (C10_terms_before_identity ["Initech"] dfC10 "Initech" (by decide)
    (by decide) 0 0 (by decide)).1

/-- Model validation: the serializer emits Python's `json.dumps`
format — default separators, quoted keys — and the parser inverts it
on a two-field object with a string and an integer field. -/
theorem dumps_loads_validation :
    dumpsVal (.jobj [("k", .jstr "v"), ("n", .jnum 2)]) =
      "\x7b\"k\": \"v\", \"n\": 2\x7d".data ∧
    loads ("\x7b\"k\": \"v\", \"n\": 2\x7d".data) =
      some (.jobj [("k", .jstr "v"), ("n", .jnum 2)]) :=
  ⟨by decide, rfl⟩

/-- Model validation: the reversal half of the spec's §8 acceptance
scenario — a result object carrying the pseudonym of the registered
term comes back with the original term, other fields untouched. -/
theorem reversal_scenario_validation :
    unpseudonymize (.ok ["Acme Corp"])
        (.jobj [("count", .jnum 2), ("entity", .jstr "a73cb4563e")]) =
      some (.jobj [("count", .jnum 2), ("entity", .jstr "Acme Corp")]) := rfl

end DD
